import Mathlib

/-!
Shallow embedding of `build/build.py`, a platform-dispatching build wrapper.

The script parses CLI arguments, detects the host OS, chooses a per-platform
build-runner class, resolves configuration from CLI flags / environment
variables / defaults, and sequences the clean / generate / build / test
phases, spawning external processes.

We embed:
* `get_env_var`, `get_os_name`, `is_running_on_windows` / `_linux` / `_osx`
  over an abstract environment map and `sys.platform` string;
* `create_build_runner` as a choice of `RunnerClass` (or an error);
* `BuildRunnerBase.__init__` plus the subclass `__init__`s as `initRunner`,
  producing a resolved `Config` or the Python exception's message;
* the orchestration (`run`, `clean`, `generate`, `build`, `tests`) as pure
  state-passing functions over a state `St` that records an event trace
  (process spawns, directory changes, deletions), the current working
  directory, whether the build output directory exists, and the three
  recorded phase times.  Wall-clock readings (`timeit.default_timer`) are
  modelled by an abstract clock `Nat → Int` indexed by the number of timer
  calls made so far; child-process success is an abstract oracle
  `spawnOk : List String → Bool`.
-/

/-- Environment: `os.environ` as a partial map from variable names. -/
abbrev EnvMap := String → Option String

deriving instance DecidableEq for Except

/-- Python `str.lower()`, modelled characterwise so that it computes in the
kernel. -/
def pyLower (s : String) : String := ⟨s.data.map Char.toLower⟩

/-- Python `str.upper()`, modelled characterwise. -/
def pyUpper (s : String) : String := ⟨s.data.map Char.toUpper⟩

/-- Python `str.startswith(pre)`. -/
def pyStartsWith (s pre : String) : Bool := pre.data.isPrefixOf s.data

/-- Python truthiness of an optional string (`if s:`): `None` and the empty
string are falsy. -/
def pyTruthy : Option String → Bool
  | none => false
  | some s => !(s == "")

/-- `get_env_var(name)`: looks up `name.upper()` in the environment,
returning `None` when absent. -/
def get_env_var (env : EnvMap) (name : String) : Option String :=
  env (pyUpper name)

/-- `get_os_name()`: the `AGENT_OS` variable (lowercased) when truthy,
otherwise `sys.platform` lowercased. -/
def get_os_name (env : EnvMap) (sysPlatform : String) : String :=
  if pyTruthy (get_env_var env "AGENT_OS") then
    pyLower ((get_env_var env "AGENT_OS").getD "")
  else
    pyLower sysPlatform

/-- `is_running_on_windows()`. -/
def is_running_on_windows (env : EnvMap) (sysPlatform : String) : Bool :=
  pyStartsWith (get_os_name env sysPlatform) "win"

/-- `is_running_on_linux()`. -/
def is_running_on_linux (env : EnvMap) (sysPlatform : String) : Bool :=
  pyStartsWith (get_os_name env sysPlatform) "linux"

/-- `is_running_on_osx()`. -/
def is_running_on_osx (env : EnvMap) (sysPlatform : String) : Bool :=
  pyStartsWith (get_os_name env sysPlatform) "darwin"

/-- The parsed CLI arguments (`argparse` namespace).  String-valued flags are
`none` when not supplied; store-true flags default to `false`. -/
structure ScriptArgs where
  operation : Option String := none
  platform : Option String := none
  arch : Option String := none
  config : Option String := none
  compiler : Option String := none
  cmaketarget : Option String := none
  vcpkgdir : Option String := none
  clean : Bool := false
  runtests : Bool := false
  as_service : Bool := false
  deriving DecidableEq

/-- The three concrete `BuildRunnerBase` subclasses. -/
inductive RunnerClass where
  | windows
  | linux
  | osx
  deriving DecidableEq

/-- The subclass's `platform` property. -/
def platformStr : RunnerClass → String
  | .windows => "windows"
  | .linux => "linux"
  | .osx => "osx"

/-- `create_build_runner(script_args)`: dispatch on `--platform` and the host
predicates, returning the class that gets instantiated (note: the branch for
requested platform `osx` on an OSX host instantiates `LinuxBuildRunner`). -/
def create_build_runner (args : ScriptArgs) (env : EnvMap) (sysPlatform : String) :
    Except String RunnerClass :=
  match args.platform with
  | none =>
    if is_running_on_windows env sysPlatform then .ok .windows
    else if is_running_on_linux env sysPlatform then .ok .linux
    else if is_running_on_osx env sysPlatform then .ok .osx
    else .error "Target platform was not specified and could not be deduced from the current host environment."
  | some p =>
    if pyLower p == "windows" then
      if is_running_on_windows env sysPlatform then .ok .windows
      else .error "Building for Windows on this host environment is not supported."
    else if pyLower p == "linux" then
      if is_running_on_linux env sysPlatform then .ok .linux
      else .error "Building for Linux on this host environment is not supported."
    else if pyLower p == "osx" then
      if is_running_on_osx env sysPlatform then .ok .linux
      else .error "Building for OsX on this host environment is not supported."
    else
      let pl := pyLower p
      .error s!"Currently builds for {pl} are not supported."

/-- Architecture resolution in `BuildRunnerBase.__init__`: truthy CLI flag
lowercased, else truthy `BUILD_ARCHITECTURE` used verbatim, else `x64`. -/
def resolveArch (cli : Option String) (env : EnvMap) : String :=
  if pyTruthy cli then pyLower (cli.getD "")
  else if pyTruthy (get_env_var env "BUILD_ARCHITECTURE") then
    (get_env_var env "BUILD_ARCHITECTURE").getD ""
  else "x64"

/-- Build-mode resolution in `BuildRunnerBase.__init__`: truthy CLI flag
lowercased, else truthy `BUILD_CONFIGURATION` lowercased, else `debug`. -/
def resolveConfig (cli : Option String) (env : EnvMap) : String :=
  if pyTruthy cli then pyLower (cli.getD "")
  else if pyTruthy (get_env_var env "BUILD_CONFIGURATION") then
    pyLower ((get_env_var env "BUILD_CONFIGURATION").getD "")
  else "debug"

/-- Compiler resolution shared by `LinuxBuildRunner.__init__` and
`OsxBuildRunner.__init__`: truthy CLI flag lowercased, else truthy
`BUILD_COMPILER` lowercased, else `gnu`. -/
def resolveCompilerUnix (cli : Option String) (env : EnvMap) : String :=
  if pyTruthy cli then pyLower (cli.getD "")
  else if pyTruthy (get_env_var env "BUILD_COMPILER") then
    pyLower ((get_env_var env "BUILD_COMPILER").getD "")
  else "gnu"

/-- vcpkg-root resolution in `BuildRunnerBase.__init__`:
`get_env_var('BUILD_VCPKGDIR') if script_args.vcpkgdir is None else
script_args.vcpkgdir` (an `is None` test, not truthiness). -/
def resolveVcpkg (cli : Option String) (env : EnvMap) : Option String :=
  match cli with
  | none => get_env_var env "BUILD_VCPKGDIR"
  | some v => some v

/-- cmake-target resolution in `BuildRunnerBase.__init__`: an explicit
`--cmaketarget` wins; otherwise `all` unless `--runtests` was given, in which
case the target stays `None`. -/
def resolveCmakeTarget (cliTarget : Option String) (runtests : Bool) : Option String :=
  match cliTarget with
  | none => if runtests != true then some "all" else none
  | some t => some t

/-- Message of the `ValueError` raised for an unsupported architecture. -/
def archError (arch plat : String) : String :=
  s!"Building {arch} architecture for {plat} is not supported."

/-- Message of the `ValueError` raised for an unsupported configuration. -/
def configError (config plat : String) : String :=
  s!"Building {config} configuration for {plat} is not supported."

/-- The state a fully initialised build runner carries into `run`. -/
structure Config where
  cls : RunnerClass
  operation_type : Option String
  vcpkg_root_path : Option String
  cmake_target : Option String
  is_clean_build : Bool
  run_tests : Bool
  arch : String
  config : String
  compiler : String
  as_service : Bool
  armWarning : Bool
  deriving DecidableEq

/-- `BuildRunnerBase.__init__` followed by the chosen subclass's
`__init__`.  Returns the resolved configuration, or the message of the
`ValueError` that the constructor raises.  The base class validates the
architecture and the build mode (naming the subclass's `platform` property in
the message); `WindowsBuildRunner` then rejects any CLI compiler other than
`msvc` and records the non-fatal arm warning; the Linux and OSX runners
resolve and validate their compiler. -/
def initRunner (cls : RunnerClass) (args : ScriptArgs) (env : EnvMap) :
    Except String Config :=
  let plat := platformStr cls
  let arch := resolveArch args.arch env
  if !(arch == "x64" || arch == "x86" || arch == "arm") then
    .error (archError arch plat)
  else
    let config := resolveConfig args.config env
    if !(config == "debug" || config == "release") then
      .error (configError config plat)
    else
      let base : Config :=
        { cls := cls
          operation_type := args.operation
          vcpkg_root_path := resolveVcpkg args.vcpkgdir env
          cmake_target := resolveCmakeTarget args.cmaketarget args.runtests
          is_clean_build := args.clean
          run_tests := args.runtests
          arch := arch
          config := config
          compiler := ""
          as_service := args.as_service
          armWarning := false }
      match cls with
      | .windows =>
        match args.compiler with
        | some c =>
          if pyLower c != "msvc" then
            .error "Only msvc compiler is supported for building on Windows."
          else
            .ok { base with compiler := "msvc", armWarning := pyStartsWith arch "arm" }
        | none =>
          .ok { base with compiler := "msvc", armWarning := pyStartsWith arch "arm" }
      | .linux =>
        let comp := resolveCompilerUnix args.compiler env
        if !(comp == "gnu" || comp == "clang") then
          .error "Only gnu and clang compilers are supported for building on Linux."
        else
          .ok { base with compiler := comp }
      | .osx =>
        let comp := resolveCompilerUnix args.compiler env
        if !(comp == "gnu" || comp == "clang") then
          .error "Only gnu and clang compilers are supported for building on OsX."
        else
          .ok { base with compiler := comp }

/-- POSIX `os.path.join` for two components: an absolute second component
replaces the first. -/
def pathJoin (a b : String) : String :=
  if pyStartsWith b "/" then b else a ++ "/" ++ b

/-- `get_default_build_path(flavor)`. -/
def get_default_build_path (tmp flavor : String) : String :=
  pathJoin (pathJoin tmp "build_do_proxywrapper") flavor

/-- `get_vcpkg_toolchain_file_path(root_path)`. -/
def get_vcpkg_toolchain_file_path (root : String) : String :=
  pathJoin (pathJoin (pathJoin root "scripts") "buildsystems") "vcpkg.cmake"

/-- `get_cmake_files_path(root_path)`. -/
def get_cmake_files_path (root : String) : String :=
  pathJoin (pathJoin root "build") "cmake"

/-- `get_cmake_toolchain_file_name(platform, arch, compiler)`. -/
def get_cmake_toolchain_file_name (platform arch compiler : String) : String :=
  s!"toolchain-{platform}-{arch}-{compiler}.cmake"

/-- `get_cmake_toolchain_file_path(platform, arch, compiler, root_path)`. -/
def get_cmake_toolchain_file_path (platform arch compiler root : String) : String :=
  pathJoin (get_cmake_files_path root) (get_cmake_toolchain_file_name platform arch compiler)

/-- The `flavor` property: `platform-arch-compiler-config`. -/
def flavor (cfg : Config) : String :=
  let p := platformStr cfg.cls
  let a := cfg.arch
  let c := cfg.compiler
  let m := cfg.config
  s!"{p}-{a}-{c}-{m}"

/-- The `generator` property of each subclass. -/
def generator (cfg : Config) : Option String :=
  match cfg.cls with
  | .windows =>
    if cfg.arch == "x64" then some "Visual Studio 15 2017 Win64"
    else some "Visual Studio 15 2017"
  | .linux => some "Unix Makefiles"
  | .osx => some "Unix Makefiles"

/-- `WindowsBuildRunner._vcpkg_triplet`. -/
def vcpkg_triplet (cfg : Config) : String :=
  let a := cfg.arch
  let p := platformStr cfg.cls
  s!"{a}-{p}"

/-- `BuildRunnerBase.generate_options`: generator choice, build type, and the
service-mode flag. -/
def baseGenerateOptions (cfg : Config) : List String :=
  (if pyTruthy (generator cfg) then ["-G", (generator cfg).getD ""] else [])
    ++ (if pyLower cfg.config == "debug" then ["-DCMAKE_BUILD_TYPE=Debug"]
        else ["-DCMAKE_BUILD_TYPE=Release"])
    ++ (if cfg.as_service then ["-DDO_BUILD_AS_SERVICE=ON"] else [])

/-- The subclass `generate_options` overrides.  `vroot` is the resolved vcpkg
root (generate only runs once it is known to be set), `projRoot` the project
root path. -/
def generate_options (cfg : Config) (env : EnvMap) (vroot projRoot : String) :
    List String :=
  let vfile := get_vcpkg_toolchain_file_path vroot
  match cfg.cls with
  | .windows =>
    let triplet := vcpkg_triplet cfg
    baseGenerateOptions cfg
      ++ [s!"-DCMAKE_TOOLCHAIN_FILE={vfile}", s!"-DVCPKG_TARGET_TRIPLET={triplet}"]
  | .linux =>
    let toolchain := get_cmake_toolchain_file_path (platformStr cfg.cls) cfg.arch cfg.compiler projRoot
    baseGenerateOptions cfg
      ++ [s!"-DCMAKE_TOOLCHAIN_FILE={vfile}", s!"-DVCPKG_CHAINLOAD_TOOLCHAIN_FILE={toolchain}"]
      ++ (if pyStartsWith cfg.arch "arm" then
            match get_env_var env "ZLIB_ROOT_DIR" with
            | some z => [s!"-DZLIB_ROOT={z}"]
            | none => []
          else [])
  | .osx =>
    let toolchain := get_cmake_toolchain_file_path (platformStr cfg.cls) cfg.arch cfg.compiler projRoot
    baseGenerateOptions cfg
      ++ [s!"-DCMAKE_TOOLCHAIN_FILE={vfile}", s!"-DVCPKG_CHAINLOAD_TOOLCHAIN_FILE={toolchain}"]
      ++ (if pyStartsWith cfg.arch "arm" then
            match get_env_var env "ZLIB_ROOT_DIR" with
            | some z => [s!"-DZLIB_ROOT={z}"]
            | none => []
          else [])

/-- `create_generate_command`: `['cmake', source_path] + generate_options`. -/
def create_generate_command (cfg : Config) (env : EnvMap) (vroot projRoot : String) :
    List String :=
  ["cmake", projRoot] ++ generate_options cfg env vroot projRoot

/-- `build_options`: the target, plus `--config` on Windows.  `target` is the
resolved cmake target (the build group only runs when it is not `None`). -/
def build_options (cfg : Config) (target : String) : List String :=
  ["--target", target]
    ++ (match cfg.cls with
        | .windows => ["--config", cfg.config]
        | _ => [])

/-- `create_build_command`: `['cmake', '--build', build_path] + build_options`. -/
def create_build_command (cfg : Config) (tmp target : String) : List String :=
  ["cmake", "--build", get_default_build_path tmp (flavor cfg)] ++ build_options cfg target

/-- Observable effects of a run, in order.  Prints that carry no state are
represented only where a claim needs them (the banner, the purge message, the
completion and timing messages). -/
inductive Event where
  | startBanner : Event
  | purgeMsg (path : String) : Event
  | rmtree (path : String) : Event
  | mkdirs (path : String) : Event
  | chdir (path : String) : Event
  | spawn (cmd : List String) : Event
  | call (cmd : List String) : Event
  | endBuildMsg : Event
  | timesMsg : Event
  deriving DecidableEq

/-- Mutable state threaded through a run: the trace of events so far, the
process working directory, whether the build output directory currently
exists, how many `timeit.default_timer()` calls were made, and the three
recorded phase durations. -/
structure St where
  events : List Event
  cwd : String
  buildDirExists : Bool
  timerCalls : Nat
  timeToClean : Int
  timeToGenerate : Int
  timeToBuild : Int
  deriving DecidableEq

/-- The state at the start of `run`: no events, timings zero (set in
`__init__`), a given working directory and build-directory status. -/
def initSt (cwd0 : String) (b0 : Bool) : St :=
  { events := [], cwd := cwd0, buildDirExists := b0, timerCalls := 0
    timeToClean := 0, timeToGenerate := 0, timeToBuild := 0 }

/-- Append an event to the trace. -/
def emit (e : Event) (st : St) : St :=
  { st with events := st.events ++ [e] }

/-- One `timeit.default_timer()` call against the abstract clock. -/
def readTimer (clock : Nat → Int) (st : St) : Int × St :=
  (clock st.timerCalls, { st with timerCalls := st.timerCalls + 1 })

/-- `BuildRunnerBase.clean`: print the purge message, read the timer, delete
the build directory if it exists, and record the elapsed time (recorded even
when nothing was deleted). -/
def clean (tmp : String) (cfg : Config) (clock : Nat → Int) (st : St) : St :=
  let bp := get_default_build_path tmp (flavor cfg)
  let st := emit (.purgeMsg bp) st
  let (t1, st) := readTimer clock st
  let st :=
    if st.buildDirExists then { (emit (.rmtree bp) st) with buildDirExists := false }
    else st
  let (t2, st) := readTimer clock st
  { st with timeToClean := t2 - t1 }

/-- `BuildRunnerBase.generate`: fail if the vcpkg root is unset; otherwise
create the build directory, change into it, spawn the generate command,
record the elapsed time, and restore the original working directory.  On a
child-process failure the exception propagates and the directory is not
restored. -/
def generatePhase (tmp projRoot : String) (cfg : Config) (env : EnvMap)
    (spawnOk : List String → Bool) (clock : Nat → Int) (st : St) :
    St × Option String :=
  match cfg.vcpkg_root_path with
  | none => (st, some "vcpkg root directory was not specified")
  | some vroot =>
    let originalDir := st.cwd
    let bp := get_default_build_path tmp (flavor cfg)
    let st := { (emit (.mkdirs bp) st) with buildDirExists := true }
    let st := { (emit (.chdir bp) st) with cwd := bp }
    let cmd := create_generate_command cfg env vroot projRoot
    let (t1, st) := readTimer clock st
    let st := emit (.spawn cmd) st
    if spawnOk cmd then
      let (t2, st) := readTimer clock st
      let st := { st with timeToGenerate := t2 - t1 }
      ({ (emit (.chdir originalDir) st) with cwd := originalDir }, none)
    else
      (st, some "subprocess.CalledProcessError")

/-- `BuildRunnerBase.build`: spawn the build command and record the elapsed
time. -/
def buildPhase (tmp : String) (cfg : Config) (target : String)
    (spawnOk : List String → Bool) (clock : Nat → Int) (st : St) :
    St × Option String :=
  let cmd := create_build_command cfg tmp target
  let (t1, st) := readTimer clock st
  let st := emit (.spawn cmd) st
  if spawnOk cmd then
    let (t2, st) := readTimer clock st
    ({ st with timeToBuild := t2 - t1 }, none)
  else
    (st, some "subprocess.CalledProcessError")

/-- `BuildRunnerBase.tests`: pick the test executable path per host and
`subprocess.call` it.  On a host that is neither Windows nor Linux the
`elif` condition evaluates the undefined module-level name `build`, raising
`NameError` before any executable path is bound. -/
def testsPhase (tmp : String) (cfg : Config) (env : EnvMap) (sysPlatform : String)
    (st : St) : St × Option String :=
  let bp := get_default_build_path tmp (flavor cfg)
  let directory := pathJoin (pathJoin tmp bp) "test"
  if is_running_on_windows env sysPlatform then
    (emit (.call [pathJoin directory "docs_tests.exe"]) st, none)
  else if is_running_on_linux env sysPlatform then
    (emit (.call [pathJoin directory "docs_tests"]) st, none)
  else
    (st, some "NameError: name build is not defined")

/-- `BuildRunnerBase.run`: when a cmake target is resolved, run the build
group (banner; clean when `--clean`; then the phase(s) selected by
`--operation`, defaulting to generate followed by build; completion and
timing messages); afterwards, when `--runtests`, run the test phase.  An
exception anywhere propagates immediately (later steps, the test phase
included, do not run). -/
def run (tmp projRoot : String) (cfg : Config) (env : EnvMap) (sysPlatform : String)
    (spawnOk : List String → Bool) (clock : Nat → Int) (st : St) :
    St × Option String :=
  match cfg.cmake_target with
  | some target =>
    let st := emit .startBanner st
    let st := if cfg.is_clean_build then clean tmp cfg clock st else st
    let step : St × Option String :=
      match cfg.operation_type with
      | some op =>
        if pyLower op == "generate" then
          generatePhase tmp projRoot cfg env spawnOk clock st
        else if pyLower op == "build" then
          buildPhase tmp cfg target spawnOk clock st
        else if pyLower op == "cleanonly" then
          (if !cfg.is_clean_build then clean tmp cfg clock st else st, none)
        else
          (st, some s!"Invalid operation specified: {op}")
      | none =>
        match generatePhase tmp projRoot cfg env spawnOk clock st with
        | (st1, some e) => (st1, some e)
        | (st1, none) => buildPhase tmp cfg target spawnOk clock st1
    match step with
    | (st1, some e) => (st1, some e)
    | (st1, none) =>
      let st2 := emit .timesMsg (emit .endBuildMsg st1)
      if cfg.run_tests then testsPhase tmp cfg env sysPlatform st2 else (st2, none)
  | none =>
    if cfg.run_tests then testsPhase tmp cfg env sysPlatform st else (st, none)

/-- Does the event represent a child-process start (`check_call` in
`run_command`, or `subprocess.call` in `tests`)? -/
def isProcessStart : Event → Bool
  | .spawn _ => true
  | .call _ => true
  | _ => false

/-- Is the event a `subprocess.call` of a test executable? -/
def isCall : Event → Bool
  | .call _ => true
  | _ => false

/-- Is the event an `os.chdir`? -/
def isChdirEvt : Event → Bool
  | .chdir _ => true
  | _ => false

/-- Is the event an `os.makedirs`? -/
def isMkdirsEvt : Event → Bool
  | .mkdirs _ => true
  | _ => false

/-- Is the event a `shutil.rmtree` deletion? -/
def isRmtreeEvt : Event → Bool
  | .rmtree _ => true
  | _ => false

/-- Is the event the purge message printed at the top of `clean` (one per
invocation of the clean phase)? -/
def isPurgeMsg : Event → Bool
  | .purgeMsg _ => true
  | _ => false

/-- The everywhere-empty environment. -/
def noEnv : EnvMap := fun _ => none

lemma pyTruthy_some {v : String} (hv : v ≠ "") : pyTruthy (some v) = true := by
  simp [pyTruthy, hv]

lemma initRunner_ok_fields {cls : RunnerClass} {args : ScriptArgs} {env : EnvMap}
    {cfg : Config} (h : initRunner cls args env = Except.ok cfg) :
    cfg.operation_type = args.operation
  ∧ cfg.cmake_target = resolveCmakeTarget args.cmaketarget args.runtests
  ∧ cfg.run_tests = args.runtests
  ∧ cfg.is_clean_build = args.clean
  ∧ cfg.vcpkg_root_path = resolveVcpkg args.vcpkgdir env
  ∧ cfg.arch = resolveArch args.arch env
  ∧ cfg.config = resolveConfig args.config env
  ∧ cfg.cls = cls := by
  cases cls <;>
    simp only [initRunner] at h <;>
    (repeat' split at h) <;>
    (try cases h) <;> simp

/-- C1: for a requested `--platform` matching the host, `windows` selects the
Windows runner and `linux` the Linux runner, but `osx` on an OSX host selects
the Linux runner, not the OSX runner — even though the same code picks the
OSX runner when the platform is left unspecified on an OSX host.  This
evaluates `create_build_runner` at the failing input. -/
theorem c1_osx_dispatch_selects_linux_runner :
    create_build_runner { platform := some "osx" } noEnv "darwin" = .ok RunnerClass.linux
  ∧ create_build_runner { platform := none } noEnv "darwin" = .ok RunnerClass.osx
  ∧ create_build_runner { platform := some "windows" } noEnv "win32" = .ok RunnerClass.windows
  ∧ create_build_runner { platform := some "linux" } noEnv "linux" = .ok RunnerClass.linux := by
  decide

/-- Environment with only `BUILD_COMPILER` set, to `clang`. -/
def c2Env : EnvMap := fun n => if n == "BUILD_COMPILER" then some "clang" else none

/-- Environment with only `BUILD_ARCHITECTURE` set, to `arm`. -/
def c2EnvArch : EnvMap := fun n => if n == "BUILD_ARCHITECTURE" then some "arm" else none

/-- C2 counterexample: two concrete violations of the claimed precedence
law.  On Windows with no `--compiler` flag and `BUILD_COMPILER=clang`, the
resolver succeeds with compiler `msvc`: the environment variable is ignored.
And with the CLI flag present but empty while `BUILD_ARCHITECTURE=arm` is
set, the resolved architecture is the environment value `arm`, not the
present flag's value: a present-but-empty flag is falsy in Python and does
not override the variable. -/
theorem c2_counterexample_precedence_violations :
    ((initRunner RunnerClass.windows {} c2Env).toOption.map Config.compiler = some "msvc"
      ∧ ("msvc" : String) ≠ "clang")
  ∧ (resolveArch (some "") c2EnvArch = "arm" ∧ ("arm" : String) ≠ "") := by
  decide

/-- C2 (amended): for architecture, build mode, and dependency-manager root
on every platform, and for the compiler on Linux and OSX, a present nonempty
CLI value is used (lowercased, except the vcpkg root, where any present flag
— even empty — wins verbatim) regardless of the environment variable; with
the flag absent or empty (falsy), a set nonempty environment variable is
used (arch verbatim, mode and compiler lowercased; the vcpkg variable is
used verbatim, even empty, whenever the flag is absent); with flag and
variable both absent or empty, the defaults `x64`, `debug`, `gnu`, and
absent apply.  On Windows the compiler is always `msvc`: `BUILD_COMPILER`
is ignored. -/
theorem c2_precedence_amended (env : EnvMap) (v : String) (hv : v ≠ "") :
    resolveArch (some v) env = pyLower v
  ∧ resolveConfig (some v) env = pyLower v
  ∧ resolveCompilerUnix (some v) env = pyLower v
  ∧ (∀ s, resolveVcpkg (some s) env = some s)
  ∧ resolveVcpkg none env = get_env_var env "BUILD_VCPKGDIR"
  ∧ (∀ cli, pyTruthy cli = false →
      (∀ w, get_env_var env "BUILD_ARCHITECTURE" = some w → w ≠ "" →
        resolveArch cli env = w)
      ∧ (∀ w, get_env_var env "BUILD_CONFIGURATION" = some w → w ≠ "" →
          resolveConfig cli env = pyLower w)
      ∧ (∀ w, get_env_var env "BUILD_COMPILER" = some w → w ≠ "" →
          resolveCompilerUnix cli env = pyLower w)
      ∧ (pyTruthy (get_env_var env "BUILD_ARCHITECTURE") = false →
          resolveArch cli env = "x64")
      ∧ (pyTruthy (get_env_var env "BUILD_CONFIGURATION") = false →
          resolveConfig cli env = "debug")
      ∧ (pyTruthy (get_env_var env "BUILD_COMPILER") = false →
          resolveCompilerUnix cli env = "gnu"))
  ∧ (∀ args cfg, initRunner RunnerClass.windows args env = Except.ok cfg →
      cfg.compiler = "msvc") := by
  refine ⟨?_, ?_, ?_, ?_, ?_, ?_, ?_⟩
  · simp [resolveArch, pyTruthy_some hv]
  · simp [resolveConfig, pyTruthy_some hv]
  · simp [resolveCompilerUnix, pyTruthy_some hv]
  · intro s; rfl
  · rfl
  · intro cli hcli
    refine ⟨?_, ?_, ?_, ?_, ?_, ?_⟩
    · intro w hw hw2
      simp [resolveArch, hcli, hw, pyTruthy_some hw2]
    · intro w hw hw2
      simp [resolveConfig, hcli, hw, pyTruthy_some hw2]
    · intro w hw hw2
      simp [resolveCompilerUnix, hcli, hw, pyTruthy_some hw2]
    · intro henv
      simp [resolveArch, hcli, henv]
    · intro henv
      simp [resolveConfig, hcli, henv]
    · intro henv
      simp [resolveCompilerUnix, hcli, henv]
  · intro args cfg h
    simp only [initRunner] at h
    repeat' split at h
    all_goals (try cases h)
    all_goals rfl

/-- Witness for the amended C2 at the concrete CLI value `ARM`. -/
theorem c2_precedence_amended_witness :
    resolveArch (some "ARM") noEnv = "arm" :=
  (c2_precedence_amended noEnv "ARM" (by decide)).1

/-- C7: whenever the resolved architecture is outside `{x86, x64, arm}`,
initialisation fails on every platform with the `ValueError` whose message
names the offending value and the platform. -/
theorem c7_invalid_arch_fatal (cls : RunnerClass) (args : ScriptArgs) (env : EnvMap)
    (h : (resolveArch args.arch env == "x64" || resolveArch args.arch env == "x86"
          || resolveArch args.arch env == "arm") = false) :
    initRunner cls args env
      = .error (archError (resolveArch args.arch env) (platformStr cls)) := by
  cases cls <;> simp [initRunner, h]

/-- Witness for C7: `--arch sparc` on the OSX runner. -/
theorem c7_invalid_arch_fatal_witness :
    initRunner RunnerClass.osx { arch := some "sparc" } noEnv
      = .error "Building sparc architecture for osx is not supported." := by
  exact (c7_invalid_arch_fatal RunnerClass.osx { arch := some "sparc" } noEnv
    (by decide)).trans (by decide)

/-- Environment with only `BUILD_ARCHITECTURE` set, to `X64`. -/
def c9Env : EnvMap := fun n => if n == "BUILD_ARCHITECTURE" then some "X64" else none

/-- C9: architecture validation is case-asymmetric between the two input
channels: the CLI value `X64` is lowercased and accepted (resolving to
`x64`), while the same value supplied through `BUILD_ARCHITECTURE` is checked
verbatim and fatally rejected. -/
theorem c9_arch_case_asymmetry :
    resolveArch (some "X64") noEnv = "x64"
  ∧ (initRunner RunnerClass.linux { arch := some "X64" } noEnv).toOption.map Config.arch
      = some "x64"
  ∧ resolveArch none c9Env = "X64"
  ∧ initRunner RunnerClass.linux {} c9Env = .error (archError "X64" "linux") := by
  decide

lemma beq_cleanonly_generate : (("cleanonly" : String) == "generate") = false := by decide

lemma beq_cleanonly_build : (("cleanonly" : String) == "build") = false := by decide

/-- A Linux configuration as resolved from empty CLI args and environment:
no vcpkg root, default target `all`, no operation. -/
def cfgNoVcpkg : Config :=
  { cls := RunnerClass.linux, operation_type := none, vcpkg_root_path := none,
    cmake_target := some "all", is_clean_build := false, run_tests := false,
    arch := "x64", config := "debug", compiler := "gnu", as_service := false,
    armWarning := false }

/-- The same configuration with `--operation cleanonly`. -/
def cfgCleanonly : Config := { cfgNoVcpkg with operation_type := some "cleanonly" }

/-- The same configuration with a vcpkg root set. -/
def cfgWithVcpkg : Config := { cfgNoVcpkg with vcpkg_root_path := some "/vcpkg" }

/-- The configuration resolved from `--runtests` alone: no cmake target. -/
def cfgTestsOnly : Config := { cfgNoVcpkg with cmake_target := none, run_tests := true }

/-- C3: with the vcpkg root unset and an operation that requires the
generate phase (explicit `generate`, or the default generate+build), the run
fails with the missing-configuration error, and its trace contains no process
start, no working-directory change and no directory creation; the working
directory is unchanged. -/
theorem c3_missing_vcpkg_fails_before_effects (tmp projRoot sys cwd0 : String)
    (b0 : Bool) (cfg : Config) (env : EnvMap) (spawnOk : List String → Bool)
    (clock : Nat → Int) (target : String)
    (hv : cfg.vcpkg_root_path = none) (ht : cfg.cmake_target = some target)
    (hop : cfg.operation_type = none ∨
           ∃ op, cfg.operation_type = some op ∧ pyLower op = "generate") :
    (run tmp projRoot cfg env sys spawnOk clock (initSt cwd0 b0)).2
        = some "vcpkg root directory was not specified"
  ∧ ((run tmp projRoot cfg env sys spawnOk clock (initSt cwd0 b0)).1.events.all
        fun e => !(isProcessStart e || isChdirEvt e || isMkdirsEvt e)) = true
  ∧ (run tmp projRoot cfg env sys spawnOk clock (initSt cwd0 b0)).1.cwd = cwd0 := by
  rcases hop with hop | ⟨op, hop, hlow⟩
  · cases hcb : cfg.is_clean_build <;> cases b0 <;>
      simp [run, ht, hop, hv, hcb, generatePhase, clean, emit, readTimer,
        initSt, isProcessStart, isChdirEvt, isMkdirsEvt]
  · cases hcb : cfg.is_clean_build <;> cases b0 <;>
      simp [run, ht, hop, hv, hcb, hlow, generatePhase, clean, emit, readTimer,
        initSt, isProcessStart, isChdirEvt, isMkdirsEvt]

/-- Witness for C3 at a concrete configuration. -/
theorem c3_missing_vcpkg_fails_before_effects_witness :
    (run "/tmp" "/proj" cfgNoVcpkg noEnv "linux" (fun _ => true) (fun n => (n : Int))
        (initSt "/home" false)).2 = some "vcpkg root directory was not specified"
  ∧ ((run "/tmp" "/proj" cfgNoVcpkg noEnv "linux" (fun _ => true) (fun n => (n : Int))
        (initSt "/home" false)).1.events.all
        fun e => !(isProcessStart e || isChdirEvt e || isMkdirsEvt e)) = true
  ∧ (run "/tmp" "/proj" cfgNoVcpkg noEnv "linux" (fun _ => true) (fun n => (n : Int))
        (initSt "/home" false)).1.cwd = "/home" :=
  c3_missing_vcpkg_fails_before_effects "/tmp" "/proj" "linux" "/home" false cfgNoVcpkg
    noEnv (fun _ => true) (fun n => (n : Int)) "all" rfl rfl (Or.inl rfl)

/-- C4: `--runtests` with no `--cmaketarget` and no `--operation` resolves
the cmake target to `None`; the run then raises nothing, its trace contains
only test-executable calls, exactly one — the whole build group is skipped,
yet the test phase runs. -/
theorem c4_runtests_without_target_skips_build_group
    (cls : RunnerClass) (args : ScriptArgs) (env : EnvMap) (cfg : Config)
    (tmp projRoot sys cwd0 : String) (b0 : Bool)
    (spawnOk : List String → Bool) (clock : Nat → Int)
    (h1 : args.runtests = true) (h2 : args.cmaketarget = none)
    (_h3 : args.operation = none)
    (hinit : initRunner cls args env = Except.ok cfg)
    (hhost : is_running_on_windows env sys = true ∨ is_running_on_linux env sys = true) :
    cfg.cmake_target = none
  ∧ (run tmp projRoot cfg env sys spawnOk clock (initSt cwd0 b0)).2 = none
  ∧ (run tmp projRoot cfg env sys spawnOk clock (initSt cwd0 b0)).1.events.all isCall = true
  ∧ (run tmp projRoot cfg env sys spawnOk clock (initSt cwd0 b0)).1.events.length = 1 := by
  obtain ⟨hopf, htf, hrf, -, -, -, -, -⟩ := initRunner_ok_fields hinit
  have htn : cfg.cmake_target = none := by
    rw [htf, h2, h1]; rfl
  have hrt : cfg.run_tests = true := by rw [hrf, h1]
  rcases hhost with hw | hl
  · simp [run, htn, hrt, testsPhase, hw, initSt, emit, isCall]
  · cases hw2 : is_running_on_windows env sys <;>
      simp [run, htn, hrt, testsPhase, hw2, hl, initSt, emit, isCall]

/-- Witness for C4: `--runtests` alone on a Linux host. -/
theorem c4_runtests_without_target_skips_build_group_witness :
    cfgTestsOnly.cmake_target = none
  ∧ (run "/tmp" "/proj" cfgTestsOnly noEnv "linux" (fun _ => true) (fun n => (n : Int))
        (initSt "/home" false)).2 = none
  ∧ (run "/tmp" "/proj" cfgTestsOnly noEnv "linux" (fun _ => true) (fun n => (n : Int))
        (initSt "/home" false)).1.events.all isCall = true
  ∧ (run "/tmp" "/proj" cfgTestsOnly noEnv "linux" (fun _ => true) (fun n => (n : Int))
        (initSt "/home" false)).1.events.length = 1 :=
  c4_runtests_without_target_skips_build_group RunnerClass.linux { runtests := true }
    noEnv cfgTestsOnly "/tmp" "/proj" "linux" "/home" false (fun _ => true)
    (fun n => (n : Int)) rfl rfl rfl (by decide) (Or.inr (by decide))

/-- CLI arguments `--operation cleanonly` and nothing else. -/
def c5Args : ScriptArgs := { operation := some "cleanonly" }

/-- C5 counterexample: running `cleanonly` on a concrete configuration whose
build output directory does not exist raises no error and deletes nothing,
but with a timer that advances by one between its two readings the recorded
clean time is `1`, not zero — `clean` stores the measured elapsed time even
when it deleted nothing. -/
theorem c5_counterexample_clean_time_not_zero :
    (initRunner RunnerClass.linux c5Args noEnv).toOption.map (fun cfg =>
        ((run "/tmp" "/proj" cfg noEnv "linux" (fun _ => true) (fun n => (n : Int))
            (initSt "/home" false)).2,
         (run "/tmp" "/proj" cfg noEnv "linux" (fun _ => true) (fun n => (n : Int))
            (initSt "/home" false)).1.timeToClean,
         ((run "/tmp" "/proj" cfg noEnv "linux" (fun _ => true) (fun n => (n : Int))
            (initSt "/home" false)).1.events.filter isRmtreeEvt).length))
      = some (none, 1, 0)
  ∧ ((1 : Int) ≠ 0) := by
  decide

/-- C5 (amended): `cleanonly` on a nonexistent build output directory raises
no error and performs no deletion, and the recorded clean time is the
difference of the two timer readings taken around the empty clean body —
which is zero exactly when the timer does not advance, but not in general. -/
theorem c5_cleanonly_missing_dir_records_elapsed (tmp projRoot sys cwd0 : String)
    (cfg : Config) (env : EnvMap) (spawnOk : List String → Bool) (clock : Nat → Int)
    (target op : String)
    (ht : cfg.cmake_target = some target)
    (hop : cfg.operation_type = some op) (hlow : pyLower op = "cleanonly")
    (hr : cfg.run_tests = false) :
    (run tmp projRoot cfg env sys spawnOk clock (initSt cwd0 false)).2 = none
  ∧ ((run tmp projRoot cfg env sys spawnOk clock (initSt cwd0 false)).1.events.filter
        isRmtreeEvt) = []
  ∧ (run tmp projRoot cfg env sys spawnOk clock (initSt cwd0 false)).1.buildDirExists = false
  ∧ (run tmp projRoot cfg env sys spawnOk clock (initSt cwd0 false)).1.timeToClean
      = clock 1 - clock 0 := by
  cases hcb : cfg.is_clean_build <;>
    simp [run, ht, hop, hlow, hcb, hr, beq_cleanonly_generate, beq_cleanonly_build,
      clean, emit, readTimer, initSt, isRmtreeEvt]

/-- Witness for the amended C5 at a concrete configuration. -/
theorem c5_cleanonly_missing_dir_records_elapsed_witness :
    (run "/tmp" "/proj" cfgCleanonly noEnv "linux" (fun _ => true) (fun n => (n : Int))
        (initSt "/home" false)).2 = none
  ∧ ((run "/tmp" "/proj" cfgCleanonly noEnv "linux" (fun _ => true) (fun n => (n : Int))
        (initSt "/home" false)).1.events.filter isRmtreeEvt) = []
  ∧ (run "/tmp" "/proj" cfgCleanonly noEnv "linux" (fun _ => true) (fun n => (n : Int))
        (initSt "/home" false)).1.buildDirExists = false
  ∧ (run "/tmp" "/proj" cfgCleanonly noEnv "linux" (fun _ => true) (fun n => (n : Int))
        (initSt "/home" false)).1.timeToClean = (fun n => (n : Int)) 1 - (fun n => (n : Int)) 0 :=
  c5_cleanonly_missing_dir_records_elapsed "/tmp" "/proj" "linux" "/home" cfgCleanonly
    noEnv (fun _ => true) (fun n => (n : Int)) "all" "cleanonly" rfl rfl rfl rfl

/-- C6: with a resolved cmake target and operation `cleanonly`, the clean
phase (marked by its purge message, printed once per invocation of `clean`)
executes exactly once, whether or not `--clean` is also set. -/
theorem c6_cleanonly_cleans_exactly_once (tmp projRoot sys cwd0 : String) (b0 : Bool)
    (cfg : Config) (env : EnvMap) (spawnOk : List String → Bool) (clock : Nat → Int)
    (target op : String)
    (ht : cfg.cmake_target = some target)
    (hop : cfg.operation_type = some op) (hlow : pyLower op = "cleanonly") :
    ((run tmp projRoot cfg env sys spawnOk clock (initSt cwd0 b0)).1.events.filter
        isPurgeMsg).length = 1 := by
  cases hcb : cfg.is_clean_build <;> cases b0 <;> cases hrt : cfg.run_tests <;>
    cases hw : is_running_on_windows env sys <;>
      cases hl : is_running_on_linux env sys <;>
        simp [run, ht, hop, hlow, hcb, hrt, hw, hl, beq_cleanonly_generate,
          beq_cleanonly_build, clean, emit, readTimer, initSt, isPurgeMsg, testsPhase]

/-- Witness for C6: `cleanonly` without `--clean` cleans once. -/
theorem c6_cleanonly_cleans_exactly_once_witness :
    ((run "/tmp" "/proj" cfgCleanonly noEnv "linux" (fun _ => true) (fun n => (n : Int))
        (initSt "/home" true)).1.events.filter isPurgeMsg).length = 1 :=
  c6_cleanonly_cleans_exactly_once "/tmp" "/proj" "linux" "/home" true cfgCleanonly
    noEnv (fun _ => true) (fun n => (n : Int)) "all" "cleanonly" rfl rfl rfl

/-- C8: with no `--operation` and a resolved target and vcpkg root (and
successful child processes), the whole trace is the banner, the optional
clean, then generate's directory creation, directory change, spawn and
directory restoration, and only then build's spawn: generate's elapsed time
uses the two timer readings taken strictly before build's two readings, and
the working directory is restored to the original before build begins. -/
theorem c8_generate_completes_before_build (tmp projRoot sys cwd0 : String)
    (b0 : Bool) (cfg : Config) (env : EnvMap) (spawnOk : List String → Bool)
    (clock : Nat → Int) (target vroot : String)
    (hop : cfg.operation_type = none) (ht : cfg.cmake_target = some target)
    (hv : cfg.vcpkg_root_path = some vroot) (hr : cfg.run_tests = false)
    (hs1 : spawnOk (create_generate_command cfg env vroot projRoot) = true)
    (hs2 : spawnOk (create_build_command cfg tmp target) = true) :
    (run tmp projRoot cfg env sys spawnOk clock (initSt cwd0 b0)).1.events
      = [Event.startBanner]
        ++ (if cfg.is_clean_build then
              [Event.purgeMsg (get_default_build_path tmp (flavor cfg))]
                ++ (if b0 then [Event.rmtree (get_default_build_path tmp (flavor cfg))]
                    else [])
            else [])
        ++ [Event.mkdirs (get_default_build_path tmp (flavor cfg)),
            Event.chdir (get_default_build_path tmp (flavor cfg)),
            Event.spawn (create_generate_command cfg env vroot projRoot),
            Event.chdir cwd0,
            Event.spawn (create_build_command cfg tmp target),
            Event.endBuildMsg, Event.timesMsg]
  ∧ (run tmp projRoot cfg env sys spawnOk clock (initSt cwd0 b0)).2 = none
  ∧ (run tmp projRoot cfg env sys spawnOk clock (initSt cwd0 b0)).1.cwd = cwd0
  ∧ (run tmp projRoot cfg env sys spawnOk clock (initSt cwd0 b0)).1.timeToGenerate
      = clock (if cfg.is_clean_build then 3 else 1)
        - clock (if cfg.is_clean_build then 2 else 0)
  ∧ (run tmp projRoot cfg env sys spawnOk clock (initSt cwd0 b0)).1.timeToBuild
      = clock (if cfg.is_clean_build then 5 else 3)
        - clock (if cfg.is_clean_build then 4 else 2) := by
  cases hcb : cfg.is_clean_build <;> cases b0 <;>
    simp [run, hop, ht, hv, hr, hcb, clean, generatePhase, buildPhase, emit,
      readTimer, initSt, hs1, hs2]

/-- Witness for C8 at a concrete configuration with a vcpkg root. -/
theorem c8_generate_completes_before_build_witness :
    (run "/tmp" "/proj" cfgWithVcpkg noEnv "linux" (fun _ => true) (fun n => (n : Int))
        (initSt "/home" false)).1.events
      = [Event.startBanner]
        ++ (if cfgWithVcpkg.is_clean_build then
              [Event.purgeMsg (get_default_build_path "/tmp" (flavor cfgWithVcpkg))]
                ++ (if false then
                      [Event.rmtree (get_default_build_path "/tmp" (flavor cfgWithVcpkg))]
                    else [])
            else [])
        ++ [Event.mkdirs (get_default_build_path "/tmp" (flavor cfgWithVcpkg)),
            Event.chdir (get_default_build_path "/tmp" (flavor cfgWithVcpkg)),
            Event.spawn (create_generate_command cfgWithVcpkg noEnv "/vcpkg" "/proj"),
            Event.chdir "/home",
            Event.spawn (create_build_command cfgWithVcpkg "/tmp" "all"),
            Event.endBuildMsg, Event.timesMsg]
  ∧ (run "/tmp" "/proj" cfgWithVcpkg noEnv "linux" (fun _ => true) (fun n => (n : Int))
        (initSt "/home" false)).2 = none
  ∧ (run "/tmp" "/proj" cfgWithVcpkg noEnv "linux" (fun _ => true) (fun n => (n : Int))
        (initSt "/home" false)).1.cwd = "/home"
  ∧ (run "/tmp" "/proj" cfgWithVcpkg noEnv "linux" (fun _ => true) (fun n => (n : Int))
        (initSt "/home" false)).1.timeToGenerate
      = (fun n => (n : Int)) (if cfgWithVcpkg.is_clean_build then 3 else 1)
        - (fun n => (n : Int)) (if cfgWithVcpkg.is_clean_build then 2 else 0)
  ∧ (run "/tmp" "/proj" cfgWithVcpkg noEnv "linux" (fun _ => true) (fun n => (n : Int))
        (initSt "/home" false)).1.timeToBuild
      = (fun n => (n : Int)) (if cfgWithVcpkg.is_clean_build then 5 else 3)
        - (fun n => (n : Int)) (if cfgWithVcpkg.is_clean_build then 4 else 2) :=
  c8_generate_completes_before_build "/tmp" "/proj" "linux" "/home" false cfgWithVcpkg
    noEnv (fun _ => true) (fun n => (n : Int)) "all" "/vcpkg" rfl rfl rfl rfl rfl rfl

/-- C10: with the run-tests flag set and a host that is neither Windows nor
Linux, the run executes no test binary (indeed nothing at all when the build
group is skipped) and fails with the `NameError` from the undefined name
`build` in the OSX branch of the test-location logic. -/
theorem c10_tests_fails_undefined_name_on_other_hosts (tmp projRoot sys cwd0 : String)
    (b0 : Bool) (cfg : Config) (env : EnvMap) (spawnOk : List String → Bool)
    (clock : Nat → Int)
    (ht : cfg.cmake_target = none) (hr : cfg.run_tests = true)
    (hw : is_running_on_windows env sys = false)
    (hl : is_running_on_linux env sys = false) :
    run tmp projRoot cfg env sys spawnOk clock (initSt cwd0 b0)
      = (initSt cwd0 b0, some "NameError: name build is not defined") := by
  simp [run, ht, hr, testsPhase, hw, hl]

/-- Witness for C10: `--runtests` with no target on a darwin host. -/
theorem c10_tests_fails_undefined_name_on_other_hosts_witness :
    run "/tmp" "/proj" cfgTestsOnly noEnv "darwin" (fun _ => true) (fun n => (n : Int))
        (initSt "/home" false)
      = (initSt "/home" false, some "NameError: name build is not defined") :=
  c10_tests_fails_undefined_name_on_other_hosts "/tmp" "/proj" "darwin" "/home" false
    cfgTestsOnly noEnv (fun _ => true) (fun n => (n : Int)) rfl rfl (by decide) (by decide)
